import Mathlib

/-!
A shallow embedding of the two scripts in this repository
(`stt_script.py`, a speech-to-text client, and `tts_script.py`, a
text-to-speech client) together with proofs of their behavioural
properties.

The external world is made explicit:
* the filesystem is a partial map from path strings to byte lists;
* the remote Google Cloud clients are parameters (a `recognize` and a
  `synthesize_speech` function that either return a response or raise a
  remote error);
* every observable action (client construction, file reads and writes,
  remote calls, lines printed to standard output) is recorded in an
  event trace;
* Python exceptions become `Except` errors: an error value propagates
  out of a function exactly when the Python exception would.
-/

set_option maxHeartbeats 1000000

/-- Raw binary file contents: a list of byte values. -/
abbrev Bytes := List Nat

/-- The filesystem: a partial map from paths to file contents.
`os.path.exists p` is `(fs p).isSome`; `open(p, "rb")` succeeds with
content `c` exactly when `fs p = some c`. -/
abbrev FS := String → Option Bytes

/-- `open(p, "wb"); write(c)`: the new filesystem after overwriting
path `p` with content `c`. -/
def writeFile (fs : FS) (p : String) (c : Bytes) : FS :=
  fun q => if q = p then some c else fs q

/-- The single-quote character, used inside printed messages. -/
def quoteChar : String := String.singleton (Char.ofNat 39)

/-- The separator line printed before each result: `"-" * 30`. -/
def dashLine : String := String.mk (List.replicate 30 '-')

/-- Round the fraction `num / den` (with `den` positive) to the nearest
integer, ties to even, as Python float formatting does.  `f` is the
floor of the fraction and `r2` twice its remainder, so comparing `r2`
with `den` compares the fractional part with one half. -/
def roundHalfEvenInt (num den : ℤ) : ℤ :=
  let f := num.fdiv den
  let r2 := 2 * (num - f * den)
  if r2 < den then f
  else if den < r2 then f + 1
  else if f % 2 = 0 then f else f + 1

/-- Render a natural number below 100 with exactly two digits. -/
def pad2 (n : Nat) : String :=
  if n < 10 then "0" ++ Nat.repr n else Nat.repr n

/-- Python fixed-point formatting `f"{q:.2f}"`: round `q` to hundredths
(ties to even) and print with exactly two digits after the point. -/
def format2 (q : ℚ) : String :=
  let n : ℤ := roundHalfEvenInt (100 * q.num) (q.den : ℤ)
  let m : Nat := n.natAbs
  (if n < 0 then "-" else "") ++ Nat.repr (m / 100) ++ "." ++ pad2 (m % 100)

namespace speech

/-- `google.cloud.speech.RecognitionConfig.AudioEncoding`. -/
inductive AudioEncoding where
  | ENCODING_UNSPECIFIED
  | LINEAR16
  | FLAC
  | MULAW
deriving DecidableEq, Repr

/-- `google.cloud.speech.RecognitionAudio`: the audio payload sent to
the remote recognizer. -/
structure RecognitionAudio where
  content : Bytes
deriving DecidableEq, Repr

/-- `google.cloud.speech.RecognitionConfig`. -/
structure RecognitionConfig where
  encoding : AudioEncoding
  sample_rate_hertz : Nat
  language_code : String
deriving DecidableEq, Repr

/-- One alternative transcription of a result, with its confidence. -/
structure SpeechRecognitionAlternative where
  transcript : String
  confidence : ℚ
deriving DecidableEq, Inhabited, Repr

/-- One entry of the remote response: a list of alternatives. -/
structure SpeechRecognitionResult where
  alternatives : List SpeechRecognitionAlternative
deriving DecidableEq, Inhabited, Repr

/-- The remote response of `recognize`: an ordered result sequence. -/
structure RecognizeResponse where
  results : List SpeechRecognitionResult
deriving DecidableEq, Inhabited, Repr

end speech

namespace texttospeech

/-- `google.cloud.texttospeech.SsmlVoiceGender`. -/
inductive SsmlVoiceGender where
  | SSML_VOICE_GENDER_UNSPECIFIED
  | MALE
  | FEMALE
  | NEUTRAL
deriving DecidableEq, Repr

/-- `google.cloud.texttospeech.AudioEncoding`. -/
inductive AudioEncoding where
  | AUDIO_ENCODING_UNSPECIFIED
  | LINEAR16
  | MP3
  | OGG_OPUS
deriving DecidableEq, Repr

/-- `google.cloud.texttospeech.SynthesisInput`: the text to speak. -/
structure SynthesisInput where
  text : String
deriving DecidableEq, Repr

/-- `google.cloud.texttospeech.VoiceSelectionParams`. -/
structure VoiceSelectionParams where
  language_code : String
  name : String
  ssml_gender : SsmlVoiceGender
deriving DecidableEq, Repr

/-- `google.cloud.texttospeech.AudioConfig`. -/
structure AudioConfig where
  audio_encoding : AudioEncoding
deriving DecidableEq, Repr

/-- The remote response of `synthesize_speech`: binary audio data. -/
structure SynthesizeSpeechResponse where
  audio_content : Bytes
deriving DecidableEq, Repr

end texttospeech

/-- Failures originating at the remote service or transport layer
(raised inside the client library; the scripts never construct these). -/
inductive RemoteError where
  | authenticationError
  | networkError
  | quotaExceeded
  | invalidArgument (message : String)
deriving DecidableEq, Repr

/-- Python exceptions that can escape the scripts' functions. -/
inductive PyError where
  | fileNotFoundError (path : String)
  | indexError
  | googleApiError (e : RemoteError)
deriving DecidableEq, Repr

/-- Which remote client object was constructed. -/
inductive ClientKind where
  | speechClient
  | textToSpeechClient
deriving DecidableEq, Repr

/-- Observable actions of a script run, recorded in program order. -/
inductive Event where
  | clientConstructed (kind : ClientKind)
  | fileOpenedRead (path : String)
  | recognizeCall (config : speech.RecognitionConfig) (audio : speech.RecognitionAudio)
  | synthesizeCall (input : texttospeech.SynthesisInput)
      (voice : texttospeech.VoiceSelectionParams)
      (audio_config : texttospeech.AudioConfig)
  | fileWrite (path : String) (content : Bytes)
  | print (line : String)
deriving DecidableEq, Repr

/-- The speech-to-text remote calls occurring in a trace, in order,
with the request each one carried. -/
def recognizeCalls (tr : List Event) :
    List (speech.RecognitionConfig × speech.RecognitionAudio) :=
  tr.filterMap fun e =>
    match e with
    | Event.recognizeCall config audio => some (config, audio)
    | _ => none

/-- The text-to-speech remote calls occurring in a trace, in order,
with the request each one carried. -/
def synthesizeCalls (tr : List Event) :
    List (texttospeech.SynthesisInput × texttospeech.VoiceSelectionParams ×
      texttospeech.AudioConfig) :=
  tr.filterMap fun e =>
    match e with
    | Event.synthesizeCall input voice audio_config => some (input, voice, audio_config)
    | _ => none

/-- How many remote client objects a trace constructs. -/
def clientConstructions (tr : List Event) : Nat :=
  (tr.filter fun e =>
    match e with
    | Event.clientConstructed _ => true
    | _ => false).length

namespace speech

/-- The behaviour of a `speech.SpeechClient` object: its `recognize`
method either returns a response or raises a remote error. -/
structure SpeechClient where
  recognize : RecognitionConfig → RecognitionAudio →
    Except RemoteError RecognizeResponse

end speech

namespace texttospeech

/-- The behaviour of a `texttospeech.TextToSpeechClient` object: its
`synthesize_speech` method either returns a response or raises. -/
structure TextToSpeechClient where
  synthesize_speech : SynthesisInput → VoiceSelectionParams → AudioConfig →
    Except RemoteError SynthesizeSpeechResponse

end texttospeech

namespace stt_script

/-- The response-processing loop of `transcribe_audio_file` (step 5 of
the script): for each result print a dash line, the first alternative's
transcript and its confidence at two decimals; an entry whose
alternatives list is empty raises `IndexError` at `alternatives[0]`,
after its dash line was printed. Returns the printed lines and the
loop's outcome. -/
def processResults :
    List speech.SpeechRecognitionResult → List String × Except PyError Unit
  | [] => ([], Except.ok ())
  | r :: rs =>
    match r.alternatives with
    | [] => ([dashLine], Except.error PyError.indexError)
    | a :: _ =>
      let lines := [dashLine,
        "Transcript: " ++ a.transcript,
        "Confidence: " ++ format2 a.confidence]
      let rest := processResults rs
      (lines ++ rest.1, rest.2)

/-- `transcribe_audio_file(file_path)` from `stt_script.py`.  The
client behaviour and the filesystem are explicit parameters; the result
is the event trace together with the function's outcome (`ok` on normal
return, `error` when a Python exception escapes).  The client is
constructed first; then the file is opened (raising `FileNotFoundError`
when absent); then the fixed config is built, a progress line printed,
the single blocking `recognize` call made, and the results printed. -/
def transcribe_audio_file (client : speech.SpeechClient) (fs : FS)
    (file_path : String) : List Event × Except PyError Unit :=
  match fs file_path with
  | none =>
    ([Event.clientConstructed ClientKind.speechClient],
     Except.error (PyError.fileNotFoundError file_path))
  | some content =>
    let audio : speech.RecognitionAudio := ⟨content⟩
    let config : speech.RecognitionConfig :=
      ⟨speech.AudioEncoding.LINEAR16, 16000, "en-US"⟩
    let pre : List Event :=
      [Event.clientConstructed ClientKind.speechClient,
       Event.fileOpenedRead file_path,
       Event.print ("Sending audio file " ++ quoteChar ++ file_path ++ quoteChar ++
         " to Google for transcription..."),
       Event.recognizeCall config audio]
    match client.recognize config audio with
    | Except.error e => (pre, Except.error (PyError.googleApiError e))
    | Except.ok response =>
      let out := processResults response.results
      (pre ++ out.1.map Event.print, out.2)

/-- The `__main__` block of `stt_script.py`: with the fixed file name
`"audio.wav"`, print the two error lines when the file does not exist,
otherwise call `transcribe_audio_file`. -/
def main (client : speech.SpeechClient) (fs : FS) :
    List Event × Except PyError Unit :=
  let audio_file_name := "audio.wav"
  if (fs audio_file_name).isNone then
    ([Event.print ("Error: Audio file " ++ quoteChar ++ audio_file_name ++ quoteChar ++
        " not found."),
      Event.print "Please place a 16000Hz WAV file in the same folder."],
     Except.ok ())
  else
    transcribe_audio_file client fs audio_file_name

end stt_script

namespace tts_script

/-- `synthesize_text(text_to_speak, output_filename="output.mp3")` from
`tts_script.py`.  The client behaviour and the filesystem are explicit;
the result is the event trace, the filesystem after the call, and the
outcome.  The client is constructed, the fixed-parameter request built,
a progress line printed, the single blocking `synthesize_speech` call
made; on success the binary payload is written to `output_filename`
(overwriting it) and a confirmation line printed. -/
def synthesize_text (client : texttospeech.TextToSpeechClient) (fs : FS)
    (text_to_speak : String) (output_filename : String) :
    List Event × FS × Except PyError Unit :=
  let synthesis_input : texttospeech.SynthesisInput := ⟨text_to_speak⟩
  let voice : texttospeech.VoiceSelectionParams :=
    ⟨"en-US", "en-US-Standard-C", texttospeech.SsmlVoiceGender.FEMALE⟩
  let audio_config : texttospeech.AudioConfig :=
    ⟨texttospeech.AudioEncoding.MP3⟩
  let pre : List Event :=
    [Event.clientConstructed ClientKind.textToSpeechClient,
     Event.print ("Synthesizing text: " ++ quoteChar ++ text_to_speak ++ quoteChar),
     Event.synthesizeCall synthesis_input voice audio_config]
  match client.synthesize_speech synthesis_input voice audio_config with
  | Except.error e => (pre, fs, Except.error (PyError.googleApiError e))
  | Except.ok response =>
    (pre ++
      [Event.fileWrite output_filename response.audio_content,
       Event.print ("Audio content written to file " ++ "\"" ++
         output_filename ++ "\"")],
     writeFile fs output_filename response.audio_content,
     Except.ok ())

/-- The `__main__` block of `tts_script.py`: synthesize the hardcoded
text with the default output file name `"output.mp3"`. -/
def main (client : texttospeech.TextToSpeechClient) (fs : FS) :
    List Event × FS × Except PyError Unit :=
  let my_project_text :=
    "Hello! I am a speech synthesis feature. " ++
    "This is an example of text-to-speech in Python using the Google Cloud API."
  synthesize_text client fs my_project_text "output.mp3"

end tts_script

/-- The lines the spec says transcription must emit for one result
entry: separator, transcript of the first alternative, confidence at
two decimal places. -/
def specEntryLines (r : speech.SpeechRecognitionResult) : List String :=
  [dashLine,
   "Transcript: " ++ r.alternatives.headI.transcript,
   "Confidence: " ++ format2 r.alternatives.headI.confidence]

/-- A speech client that always fails with error `e` (a stub for
witnesses). -/
def failingSpeechClient (e : RemoteError) : speech.SpeechClient :=
  ⟨fun _ _ => Except.error e⟩

/-- A speech client whose `recognize` always returns `response`. -/
def constSpeechClient (response : speech.RecognizeResponse) :
    speech.SpeechClient :=
  ⟨fun _ _ => Except.ok response⟩

/-- A text-to-speech client that always fails with error `e`. -/
def failingTtsClient (e : RemoteError) : texttospeech.TextToSpeechClient :=
  ⟨fun _ _ _ => Except.error e⟩

/-- A text-to-speech client that always returns payload `b`. -/
def constTtsClient (b : Bytes) : texttospeech.TextToSpeechClient :=
  ⟨fun _ _ _ => Except.ok ⟨b⟩⟩

/-- A filesystem holding a single file. -/
def singleFileFS (p : String) (c : Bytes) : FS :=
  fun q => if q = p then some c else none

/-- The empty filesystem. -/
def emptyFS : FS := fun _ => none

/-! ## Helper lemmas -/

theorem recognizeCalls_append (l m : List Event) :
    recognizeCalls (l ++ m) = recognizeCalls l ++ recognizeCalls m := by
  simp [recognizeCalls]

theorem recognizeCalls_map_print (ls : List String) :
    recognizeCalls (ls.map Event.print) = [] := by
  induction ls with
  | nil => rfl
  | cons s ls _ih => simp [recognizeCalls]

theorem pad2_length (m : Nat) (h : m < 100) : (pad2 m).length = 2 := by
  revert h
  revert m
  decide

theorem format2_two_decimals (q : ℚ) :
    ∃ a b, format2 q = a ++ "." ++ b ∧ b.length = 2 := by
  refine ⟨(if roundHalfEvenInt (100 * q.num) (q.den : ℤ) < 0 then "-" else "") ++
    Nat.repr ((roundHalfEvenInt (100 * q.num) (q.den : ℤ)).natAbs / 100),
    pad2 ((roundHalfEvenInt (100 * q.num) (q.den : ℤ)).natAbs % 100), ?_, ?_⟩
  · rfl
  · exact pad2_length _ (Nat.mod_lt _ (by decide))

/-! ## Claims -/

/-- C1: when the fixed input file `"audio.wav"` does not exist, the
`stt_script` entry point prints exactly the two local-not-found lines,
returns normally (no exception escapes), performs zero remote calls and
never constructs the remote client. -/
theorem stt_main_missing_file_no_remote_call
    (client : speech.SpeechClient) (fs : FS) (h : fs "audio.wav" = none) :
    stt_script.main client fs =
      ([Event.print ("Error: Audio file " ++ quoteChar ++ "audio.wav" ++
          quoteChar ++ " not found."),
        Event.print "Please place a 16000Hz WAV file in the same folder."],
       Except.ok ())
    ∧ recognizeCalls (stt_script.main client fs).1 = []
    ∧ clientConstructions (stt_script.main client fs).1 = 0 := by
  simp [stt_script.main, h, recognizeCalls, clientConstructions]

/-- Witness for C1 at the empty filesystem and a stub client. -/
theorem stt_main_missing_file_no_remote_call_witness :
    emptyFS "audio.wav" = none ∧
    (stt_script.main (failingSpeechClient RemoteError.authenticationError)
        emptyFS =
      ([Event.print ("Error: Audio file " ++ quoteChar ++ "audio.wav" ++
          quoteChar ++ " not found."),
        Event.print "Please place a 16000Hz WAV file in the same folder."],
       Except.ok ())
    ∧ recognizeCalls (stt_script.main
        (failingSpeechClient RemoteError.authenticationError) emptyFS).1 = []
    ∧ clientConstructions (stt_script.main
        (failingSpeechClient RemoteError.authenticationError) emptyFS).1 = 0) :=
  ⟨rfl,
   stt_main_missing_file_no_remote_call
     (failingSpeechClient RemoteError.authenticationError) emptyFS rfl⟩

/-- C9: calling `stt_script.transcribe_audio_file` directly on a nonexistent path
constructs the remote client first, then raises `FileNotFoundError`
out of the function (the existence check lives only in the entry
point). -/
theorem transcribe_direct_missing_file_raises
    (client : speech.SpeechClient) (fs : FS) (file_path : String)
    (h : fs file_path = none) :
    stt_script.transcribe_audio_file client fs file_path =
      ([Event.clientConstructed ClientKind.speechClient],
       Except.error (PyError.fileNotFoundError file_path)) := by
  simp [stt_script.transcribe_audio_file, h]

/-- Witness for C9 at the empty filesystem and a stub client. -/
theorem transcribe_direct_missing_file_raises_witness :
    emptyFS "audio.wav" = none ∧
    stt_script.transcribe_audio_file (constSpeechClient ⟨[]⟩) emptyFS "audio.wav" =
      ([Event.clientConstructed ClientKind.speechClient],
       Except.error (PyError.fileNotFoundError "audio.wav")) :=
  ⟨rfl, transcribe_direct_missing_file_raises (constSpeechClient ⟨[]⟩)
    emptyFS "audio.wav" rfl⟩

/-- C2: a failure raised by the remote call propagates out of
`transcribe_audio_file` and out of `synthesize_text` carrying exactly
the raised error, with no local handler and no retry (each trace holds
exactly one remote call). -/
theorem remote_errors_propagate_unmodified
    (client : speech.SpeechClient) (tclient : texttospeech.TextToSpeechClient)
    (fs gs : FS) (file_path : String) (content : Bytes) (text out : String)
    (e1 e2 : RemoteError)
    (hf : fs file_path = some content)
    (hrec : client.recognize ⟨speech.AudioEncoding.LINEAR16, 16000, "en-US"⟩
      ⟨content⟩ = Except.error e1)
    (hsyn : tclient.synthesize_speech ⟨text⟩
      ⟨"en-US", "en-US-Standard-C", texttospeech.SsmlVoiceGender.FEMALE⟩
      ⟨texttospeech.AudioEncoding.MP3⟩ = Except.error e2) :
    (stt_script.transcribe_audio_file client fs file_path).2 =
      Except.error (PyError.googleApiError e1)
    ∧ recognizeCalls (stt_script.transcribe_audio_file client fs file_path).1 =
      [(⟨speech.AudioEncoding.LINEAR16, 16000, "en-US"⟩, ⟨content⟩)]
    ∧ (tts_script.synthesize_text tclient gs text out).2.2 =
      Except.error (PyError.googleApiError e2)
    ∧ synthesizeCalls (tts_script.synthesize_text tclient gs text out).1 =
      [(⟨text⟩, ⟨"en-US", "en-US-Standard-C", texttospeech.SsmlVoiceGender.FEMALE⟩,
        ⟨texttospeech.AudioEncoding.MP3⟩)] := by
  refine ⟨?_, ?_, ?_, ?_⟩ <;>
    simp [stt_script.transcribe_audio_file, tts_script.synthesize_text,
      hf, hrec, hsyn, recognizeCalls, synthesizeCalls]

/-- Witness for C2 at stub clients that raise an authentication error. -/
theorem remote_errors_propagate_unmodified_witness :
    singleFileFS "audio.wav" [0] "audio.wav" = some [0] ∧
    (failingSpeechClient RemoteError.authenticationError).recognize
      ⟨speech.AudioEncoding.LINEAR16, 16000, "en-US"⟩ ⟨[0]⟩ =
      Except.error RemoteError.authenticationError ∧
    (failingTtsClient RemoteError.authenticationError).synthesize_speech ⟨"hi"⟩
      ⟨"en-US", "en-US-Standard-C", texttospeech.SsmlVoiceGender.FEMALE⟩
      ⟨texttospeech.AudioEncoding.MP3⟩ =
      Except.error RemoteError.authenticationError ∧
    ((stt_script.transcribe_audio_file
        (failingSpeechClient RemoteError.authenticationError)
        (singleFileFS "audio.wav" [0]) "audio.wav").2 =
      Except.error (PyError.googleApiError RemoteError.authenticationError)
    ∧ recognizeCalls (stt_script.transcribe_audio_file
        (failingSpeechClient RemoteError.authenticationError)
        (singleFileFS "audio.wav" [0]) "audio.wav").1 =
      [(⟨speech.AudioEncoding.LINEAR16, 16000, "en-US"⟩, ⟨[0]⟩)]
    ∧ (tts_script.synthesize_text
        (failingTtsClient RemoteError.authenticationError) emptyFS
        "hi" "output.mp3").2.2 =
      Except.error (PyError.googleApiError RemoteError.authenticationError)
    ∧ synthesizeCalls (tts_script.synthesize_text
        (failingTtsClient RemoteError.authenticationError) emptyFS
        "hi" "output.mp3").1 =
      [(⟨"hi"⟩, ⟨"en-US", "en-US-Standard-C", texttospeech.SsmlVoiceGender.FEMALE⟩,
        ⟨texttospeech.AudioEncoding.MP3⟩)]) :=
  ⟨by decide, rfl, rfl,
   remote_errors_propagate_unmodified
     (failingSpeechClient RemoteError.authenticationError)
     (failingTtsClient RemoteError.authenticationError)
     (singleFileFS "audio.wav" [0]) emptyFS "audio.wav" [0] "hi" "output.mp3"
     RemoteError.authenticationError RemoteError.authenticationError
     (by decide) rfl rfl⟩

/-- C4: when the input file exists with content `content`,
`transcribe_audio_file` performs exactly one remote call, whose request
carries the fixed configuration (LINEAR16, 16000 Hz, "en-US") and the
file's full bytes as the audio content — whatever the call returns. -/
theorem transcribe_single_call_fixed_config
    (client : speech.SpeechClient) (fs : FS) (file_path : String)
    (content : Bytes) (h : fs file_path = some content) :
    recognizeCalls (stt_script.transcribe_audio_file client fs file_path).1 =
      [(⟨speech.AudioEncoding.LINEAR16, 16000, "en-US"⟩, ⟨content⟩)] := by
  cases hrec : client.recognize ⟨speech.AudioEncoding.LINEAR16, 16000, "en-US"⟩
      ⟨content⟩ with
  | error e =>
    simp [stt_script.transcribe_audio_file, h, hrec, recognizeCalls]
  | ok response =>
    simp [stt_script.transcribe_audio_file, h, hrec, recognizeCalls]

/-- Witness for C4 at a one-file filesystem and a stub client. -/
theorem transcribe_single_call_fixed_config_witness :
    singleFileFS "audio.wav" [1, 2] "audio.wav" = some [1, 2] ∧
    recognizeCalls (stt_script.transcribe_audio_file (constSpeechClient ⟨[]⟩)
        (singleFileFS "audio.wav" [1, 2]) "audio.wav").1 =
      [(⟨speech.AudioEncoding.LINEAR16, 16000, "en-US"⟩, ⟨[1, 2]⟩)] :=
  ⟨by decide, transcribe_single_call_fixed_config (constSpeechClient ⟨[]⟩)
    (singleFileFS "audio.wav" [1, 2]) "audio.wav" [1, 2] (by decide)⟩

/-- C5: for every input text (the empty text included) and output path,
`synthesize_text` performs exactly one remote call, whose request
carries the text as input and the fixed parameters ("en-US",
"en-US-Standard-C", FEMALE, MP3) — whatever the call returns. -/
theorem synthesize_single_call_fixed_params
    (client : texttospeech.TextToSpeechClient) (fs : FS) (text out : String) :
    synthesizeCalls (tts_script.synthesize_text client fs text out).1 =
      [(⟨text⟩, ⟨"en-US", "en-US-Standard-C", texttospeech.SsmlVoiceGender.FEMALE⟩,
        ⟨texttospeech.AudioEncoding.MP3⟩)] := by
  cases hsyn : client.synthesize_speech ⟨text⟩
      ⟨"en-US", "en-US-Standard-C", texttospeech.SsmlVoiceGender.FEMALE⟩
      ⟨texttospeech.AudioEncoding.MP3⟩ with
  | error e =>
    simp [tts_script.synthesize_text, hsyn, synthesizeCalls]
  | ok response =>
    simp [tts_script.synthesize_text, hsyn, synthesizeCalls]

/-- C3: when the remote synthesis call returns payload `payload`,
`synthesize_text` overwrites the output path with exactly that payload,
emits the confirmation line naming the output path, and returns
normally — whatever was previously stored at that path. -/
theorem synthesize_text_writes_payload_and_confirms
    (client : texttospeech.TextToSpeechClient) (fs : FS) (text out : String)
    (payload : Bytes)
    (h : client.synthesize_speech ⟨text⟩
      ⟨"en-US", "en-US-Standard-C", texttospeech.SsmlVoiceGender.FEMALE⟩
      ⟨texttospeech.AudioEncoding.MP3⟩ = Except.ok ⟨payload⟩) :
    (tts_script.synthesize_text client fs text out).2.1 out = some payload
    ∧ Event.print ("Audio content written to file " ++ "\"" ++ out ++ "\"") ∈
      (tts_script.synthesize_text client fs text out).1
    ∧ (tts_script.synthesize_text client fs text out).2.2 = Except.ok () := by
  refine ⟨?_, ?_, ?_⟩ <;> simp [tts_script.synthesize_text, h, writeFile]

/-- Witness for C3 at a stub client returning a two-byte payload, on a
filesystem where the output file already exists with other content. -/
theorem synthesize_text_writes_payload_and_confirms_witness :
    (constTtsClient [7, 8]).synthesize_speech ⟨"hi"⟩
      ⟨"en-US", "en-US-Standard-C", texttospeech.SsmlVoiceGender.FEMALE⟩
      ⟨texttospeech.AudioEncoding.MP3⟩ = Except.ok ⟨[7, 8]⟩ ∧
    ((tts_script.synthesize_text (constTtsClient [7, 8])
        (singleFileFS "output.mp3" [9]) "hi" "output.mp3").2.1 "output.mp3" =
      some [7, 8]
    ∧ Event.print ("Audio content written to file " ++ "\"" ++ "output.mp3" ++
        "\"") ∈
      (tts_script.synthesize_text (constTtsClient [7, 8])
        (singleFileFS "output.mp3" [9]) "hi" "output.mp3").1
    ∧ (tts_script.synthesize_text (constTtsClient [7, 8])
        (singleFileFS "output.mp3" [9]) "hi" "output.mp3").2.2 =
      Except.ok ()) :=
  ⟨rfl, synthesize_text_writes_payload_and_confirms (constTtsClient [7, 8])
    (singleFileFS "output.mp3" [9]) "hi" "output.mp3" [7, 8] rfl⟩

/-- C6: when the remote recognizer returns an empty result sequence,
`transcribe_audio_file` prints no transcript lines (the trace ends at
the remote call) and returns normally. -/
theorem transcribe_empty_results_no_lines
    (client : speech.SpeechClient) (fs : FS) (file_path : String)
    (content : Bytes)
    (hf : fs file_path = some content)
    (hrec : client.recognize ⟨speech.AudioEncoding.LINEAR16, 16000, "en-US"⟩
      ⟨content⟩ = Except.ok ⟨[]⟩) :
    stt_script.transcribe_audio_file client fs file_path =
      ([Event.clientConstructed ClientKind.speechClient,
        Event.fileOpenedRead file_path,
        Event.print ("Sending audio file " ++ quoteChar ++ file_path ++
          quoteChar ++ " to Google for transcription..."),
        Event.recognizeCall ⟨speech.AudioEncoding.LINEAR16, 16000, "en-US"⟩
          ⟨content⟩],
       Except.ok ()) := by
  simp [stt_script.transcribe_audio_file, hf, hrec, stt_script.processResults]

/-- Witness for C6 at a stub client recognizing nothing. -/
theorem transcribe_empty_results_no_lines_witness :
    singleFileFS "audio.wav" [5] "audio.wav" = some [5] ∧
    (constSpeechClient ⟨[]⟩).recognize
      ⟨speech.AudioEncoding.LINEAR16, 16000, "en-US"⟩ ⟨[5]⟩ =
      Except.ok ⟨[]⟩ ∧
    stt_script.transcribe_audio_file (constSpeechClient ⟨[]⟩)
        (singleFileFS "audio.wav" [5]) "audio.wav" =
      ([Event.clientConstructed ClientKind.speechClient,
        Event.fileOpenedRead "audio.wav",
        Event.print ("Sending audio file " ++ quoteChar ++ "audio.wav" ++
          quoteChar ++ " to Google for transcription..."),
        Event.recognizeCall ⟨speech.AudioEncoding.LINEAR16, 16000, "en-US"⟩
          ⟨[5]⟩],
       Except.ok ()) :=
  ⟨by decide, rfl, transcribe_empty_results_no_lines (constSpeechClient ⟨[]⟩)
    (singleFileFS "audio.wav" [5]) "audio.wav" [5] (by decide) rfl⟩

/-- C8: writing a synthesis response's bytes to a path and reading that
path back yields exactly the bytes that were written. -/
theorem synthesis_write_read_roundtrip (fs : FS) (p : String)
    (response : texttospeech.SynthesizeSpeechResponse) :
    writeFile fs p response.audio_content p = some response.audio_content := by
  simp [writeFile]

/-- The result-printing loop agrees with the spec's per-entry lines
whenever every entry has at least one alternative: it prints exactly
the entries' lines in order and returns normally. -/
theorem processResults_eq_specEntryLines
    (rs : List speech.SpeechRecognitionResult)
    (h : ∀ r ∈ rs, r.alternatives ≠ []) :
    stt_script.processResults rs = (rs.flatMap specEntryLines, Except.ok ()) := by
  induction rs with
  | nil => rfl
  | cons r rs ih =>
    have hr : r.alternatives ≠ [] := h r (by simp)
    have ih2 := ih (fun x hx => h x (by simp [hx]))
    cases halt : r.alternatives with
    | nil => exact absurd halt hr
    | cons a rest =>
      simp [stt_script.processResults, halt, ih2, specEntryLines]

/-- C7: for a remote response every entry of which has an alternative,
`transcribe_audio_file` returns normally and its trace ends with, for
each entry in order, the separator line, the entry's transcript and its
confidence score rendered by `format2`; and `format2` always produces
exactly two digits after the decimal point. -/
theorem transcribe_emits_transcripts_in_order
    (client : speech.SpeechClient) (fs : FS) (file_path : String)
    (content : Bytes) (response : speech.RecognizeResponse)
    (hf : fs file_path = some content)
    (hrec : client.recognize ⟨speech.AudioEncoding.LINEAR16, 16000, "en-US"⟩
      ⟨content⟩ = Except.ok response)
    (hne : ∀ r ∈ response.results, r.alternatives ≠ []) :
    stt_script.transcribe_audio_file client fs file_path =
      ([Event.clientConstructed ClientKind.speechClient,
        Event.fileOpenedRead file_path,
        Event.print ("Sending audio file " ++ quoteChar ++ file_path ++
          quoteChar ++ " to Google for transcription..."),
        Event.recognizeCall ⟨speech.AudioEncoding.LINEAR16, 16000, "en-US"⟩
          ⟨content⟩] ++
        (response.results.flatMap specEntryLines).map Event.print,
       Except.ok ())
    ∧ ∀ q : ℚ, ∃ a b, format2 q = a ++ "." ++ b ∧ b.length = 2 := by
  refine ⟨?_, format2_two_decimals⟩
  simp [stt_script.transcribe_audio_file, hf, hrec,
    processResults_eq_specEntryLines response.results hne]

/-- Witness for C7 at a stub client returning two result entries. -/
theorem transcribe_emits_transcripts_in_order_witness :
    singleFileFS "audio.wav" [5] "audio.wav" = some [5] ∧
    (constSpeechClient ⟨[⟨[⟨"hello world", mkRat 87 100⟩]⟩,
        ⟨[⟨"again", 1⟩, ⟨"agin", 0⟩]⟩]⟩).recognize
      ⟨speech.AudioEncoding.LINEAR16, 16000, "en-US"⟩ ⟨[5]⟩ =
      Except.ok ⟨[⟨[⟨"hello world", mkRat 87 100⟩]⟩,
        ⟨[⟨"again", 1⟩, ⟨"agin", 0⟩]⟩]⟩ ∧
    (∀ r ∈ (⟨[⟨[⟨"hello world", mkRat 87 100⟩]⟩,
        ⟨[⟨"again", 1⟩, ⟨"agin", 0⟩]⟩]⟩ : speech.RecognizeResponse).results,
      r.alternatives ≠ []) ∧
    (stt_script.transcribe_audio_file
        (constSpeechClient ⟨[⟨[⟨"hello world", mkRat 87 100⟩]⟩,
          ⟨[⟨"again", 1⟩, ⟨"agin", 0⟩]⟩]⟩)
        (singleFileFS "audio.wav" [5]) "audio.wav" =
      ([Event.clientConstructed ClientKind.speechClient,
        Event.fileOpenedRead "audio.wav",
        Event.print ("Sending audio file " ++ quoteChar ++ "audio.wav" ++
          quoteChar ++ " to Google for transcription..."),
        Event.recognizeCall ⟨speech.AudioEncoding.LINEAR16, 16000, "en-US"⟩
          ⟨[5]⟩] ++
        ((⟨[⟨[⟨"hello world", mkRat 87 100⟩]⟩,
          ⟨[⟨"again", 1⟩, ⟨"agin", 0⟩]⟩]⟩ :
            speech.RecognizeResponse).results.flatMap specEntryLines).map
          Event.print,
       Except.ok ())
    ∧ ∀ q : ℚ, ∃ a b, format2 q = a ++ "." ++ b ∧ b.length = 2) :=
  ⟨by decide, rfl, by decide,
   transcribe_emits_transcripts_in_order
     (constSpeechClient ⟨[⟨[⟨"hello world", mkRat 87 100⟩]⟩,
       ⟨[⟨"again", 1⟩, ⟨"agin", 0⟩]⟩]⟩)
     (singleFileFS "audio.wav" [5]) "audio.wav" [5]
     ⟨[⟨[⟨"hello world", mkRat 87 100⟩]⟩, ⟨[⟨"again", 1⟩, ⟨"agin", 0⟩]⟩]⟩
     (by decide) rfl (by decide)⟩

/-- C10: the printing loop uses only the first alternative of each
entry (its output is independent of the remaining alternatives), and a
response containing an entry with an empty alternatives list makes
`transcribe_audio_file` raise `IndexError` rather than skip the
entry. -/
theorem transcribe_first_alternative_only_and_index_error :
    (∀ (a : speech.SpeechRecognitionAlternative)
       (rest : List speech.SpeechRecognitionAlternative)
       (rs : List speech.SpeechRecognitionResult),
      stt_script.processResults (⟨a :: rest⟩ :: rs) =
        (dashLine :: ("Transcript: " ++ a.transcript) ::
          ("Confidence: " ++ format2 a.confidence) ::
          (stt_script.processResults rs).1,
         (stt_script.processResults rs).2))
    ∧ ∀ (client : speech.SpeechClient) (fs : FS) (file_path : String)
        (content : Bytes) (response : speech.RecognizeResponse),
        fs file_path = some content →
        client.recognize ⟨speech.AudioEncoding.LINEAR16, 16000, "en-US"⟩
          ⟨content⟩ = Except.ok response →
        (∃ r ∈ response.results, r.alternatives = []) →
        (stt_script.transcribe_audio_file client fs file_path).2 =
          Except.error PyError.indexError := by
  constructor
  · intro a rest rs
    simp [stt_script.processResults]
  · intro client fs file_path content response hf hrec hex
    have hloop : ∀ rs : List speech.SpeechRecognitionResult,
        (∃ r ∈ rs, r.alternatives = []) →
        (stt_script.processResults rs).2 = Except.error PyError.indexError := by
      intro rs
      induction rs with
      | nil => intro h ; simp at h
      | cons r rs ih =>
        intro h
        cases halt : r.alternatives with
        | nil => simp [stt_script.processResults, halt]
        | cons a rest =>
          have hrs : ∃ x ∈ rs, x.alternatives = [] := by
            rcases h with ⟨x, hx, hxe⟩
            rcases List.mem_cons.mp hx with h1 | h2
            · rw [h1, halt] at hxe ; cases hxe
            · exact ⟨x, h2, hxe⟩
          simp [stt_script.processResults, halt, ih hrs]
    simp [stt_script.transcribe_audio_file, hf, hrec, hloop response.results hex]

/-- Witness for C10: a response whose second entry has no alternatives
makes the operation raise `IndexError`. -/
theorem transcribe_first_alternative_only_and_index_error_witness :
    singleFileFS "audio.wav" [3] "audio.wav" = some [3] ∧
    (constSpeechClient ⟨[⟨[⟨"x", 1⟩]⟩, ⟨[]⟩]⟩).recognize
      ⟨speech.AudioEncoding.LINEAR16, 16000, "en-US"⟩ ⟨[3]⟩ =
      Except.ok ⟨[⟨[⟨"x", 1⟩]⟩, ⟨[]⟩]⟩ ∧
    (∃ r ∈ (⟨[⟨[⟨"x", 1⟩]⟩, ⟨[]⟩]⟩ : speech.RecognizeResponse).results,
      r.alternatives = []) ∧
    (stt_script.transcribe_audio_file (constSpeechClient ⟨[⟨[⟨"x", 1⟩]⟩, ⟨[]⟩]⟩)
        (singleFileFS "audio.wav" [3]) "audio.wav").2 =
      Except.error PyError.indexError :=
  ⟨by decide, rfl, by decide,
   transcribe_first_alternative_only_and_index_error.2
     (constSpeechClient ⟨[⟨[⟨"x", 1⟩]⟩, ⟨[]⟩]⟩)
     (singleFileFS "audio.wav" [3]) "audio.wav" [3]
     ⟨[⟨[⟨"x", 1⟩]⟩, ⟨[]⟩]⟩ (by decide) rfl (by decide)⟩
